import Mathlib

set_option autoImplicit false

/-!
Verification of the plugin instance lifecycle manager in
`src/maubot/instance.py` (class `PluginInstance`, collaborators
`PluginLoader` and `Client`).

The embedding is a shallow one: the mutable Python object graph becomes an
explicit `World` record threaded through every operation.  Python object
identity is modelled by numeric tokens allocated by a counter; the
class-level `PluginInstance.cache` dictionary becomes an association list
from instance id to token; the SQLAlchemy table behind `DBPlugin.query`
becomes a list of records.  ORM aliasing (the instance's `db_instance`
object and the table row are one object) is modelled by syncing the row
with the instance's record copy on every instance write.  Calls into
external plugin code (the asynchronous start/stop hooks, `loader.load()`,
`loader.read_file`) are parameters telling whether they succeed or raise;
an operation that lets an exception propagate to its caller returns `none`.
-/

/-- Persisted record of one plugin instance (the `DBPlugin` row: fields
`id`, `type`, `enabled`, `primary_user`, `config`).  Identifiers and the
opaque serialized config blob are modelled as naturals. -/
structure DBPlugin where
  id : Nat
  type : Nat
  enabled : Bool
  primary_user : Nat
  config : Nat
deriving DecidableEq, Repr

/-- Modelled from the spec: the Loader collaborator (spec section 6) is identified by
`type` and holds a reverse-reference set of the instances depending on it;
only its interface is in `src/maubot/instance.py`.  The set holds instance
object tokens. -/
structure PluginLoader where
  lid : Nat
  references : List Nat
deriving DecidableEq, Repr

/-- Modelled from the spec: the Client collaborator (spec section 6) is identified by
`primary_user` and holds a reverse-reference set of instance tokens. -/
structure Client where
  cid : Nat
  references : List Nat
deriving DecidableEq, Repr

/-- The value `self.config` holds after the configuration class is
instantiated in `start()`; it records whether a packaged base-config file
was found. -/
structure ConfigVal where
  hasBase : Bool
deriving DecidableEq, Repr

/-- In-memory state of one `PluginInstance` object: its `db_instance`
record, the optionally bound loader (by `type` key) and client (by
`primary_user` key; `none` covers both the never-assigned attribute and an
assigned Python `None`), the plugin runtime object (`self.plugin`), the
bound config object and the `running` flag. -/
structure InstState where
  dbInstance : DBPlugin
  loader : Option Nat
  client : Option Nat
  plugin : Option Unit
  config : Option ConfigVal
  running : Bool
deriving DecidableEq, Repr

/-- Log and hook events emitted by the lifecycle operations, in order. -/
inductive Event where
  | warnAlreadyStarted
  | warnDisabled
  | warnNotRunning
  | errNoLoader
  | errNoClient
  | debugDepsLoaded
  | debugStopping
  | excStartFailed
  | excStopFailed
  | infoStarted
deriving DecidableEq, Repr

/-- The whole mutable process state touched by `instance.py`: the persisted
table, the class-level id-to-object cache, the heap of live instance
objects (token to state), the loader and client registries, and the token
allocator. -/
structure World where
  dbPlugins : List DBPlugin
  cache : List (Nat × Nat)
  instances : List (Nat × InstState)
  loaders : List PluginLoader
  clients : List Client
  nextToken : Nat
deriving DecidableEq, Repr

/-- Lookup in the class-level cache dictionary (`cls.cache[instance_id]`). -/
def World.cacheLookup (w : World) (i : Nat) : Option Nat :=
  (w.cache.find? (·.1 == i)).map (·.2)

/-- Dereference an instance object token. -/
def World.inst (w : World) (tok : Nat) : Option InstState :=
  (w.instances.find? (·.1 == tok)).map (·.2)

/-- Embeds `DBPlugin.query.get(instance_id)`: primary-key lookup in the
persisted table. -/
def DBPlugin.queryGet (dbs : List DBPlugin) (i : Nat) : Option DBPlugin :=
  dbs.find? (·.id == i)

/-- Modelled from the spec: `PluginLoader.find(type)` resolves the loader registry by
`type`; `instance.py` catches the `KeyError` it raises when the type is
unknown, modelled here by `none`. -/
def PluginLoader.find (ls : List PluginLoader) (t : Nat) : Option PluginLoader :=
  ls.find? (·.lid == t)

/-- Modelled from the spec: `Client.get(primary_user)` returns the client or a falsy
`None` when unavailable, modelled by `none`. -/
def Client.get (cs : List Client) (u : Nat) : Option Client :=
  cs.find? (·.cid == u)

/-- Python `set.add`: no duplicate is introduced. -/
def refsAdd (refs : List Nat) (tok : Nat) : List Nat :=
  if tok ∈ refs then refs else tok :: refs

/-- Python `set.remove`: raises `KeyError` (`none`) when the element is
absent. -/
def refsRemove (refs : List Nat) (tok : Nat) : Option (List Nat) :=
  if tok ∈ refs then some (refs.filter (· != tok)) else none

/-- Write an instance object's state back to the heap.  Because the
instance's `db_instance` and the table row are the same Python object, the
row with the matching id is synced with the instance's record copy. -/
def World.putInst (w : World) (tok : Nat) (st : InstState) : World :=
  { w with
      instances := w.instances.map (fun p => if p.1 == tok then (tok, st) else p),
      dbPlugins := w.dbPlugins.map
        (fun r => if r.id == st.dbInstance.id then st.dbInstance else r) }

/-- In-place mutation of a shared loader object in the registry. -/
def World.putLoader (w : World) (l' : PluginLoader) : World :=
  { w with loaders := w.loaders.map (fun l => if l.lid == l'.lid then l' else l) }

/-- In-place mutation of a shared client object in the registry. -/
def World.putClient (w : World) (c' : Client) : World :=
  { w with clients := w.clients.map (fun c => if c.cid == c'.cid then c' else c) }

/-- Embeds the setter behind `self.enabled = value` (writes through to the
`db_instance` record). -/
def InstState.setEnabled (st : InstState) (v : Bool) : InstState :=
  { st with dbInstance := { st.dbInstance with enabled := v } }

/-- The object state produced by `PluginInstance.__init__`: `config` is
`None`, `running` is false, loader/client/plugin attributes are unset. -/
def PluginInstance.initState (r : DBPlugin) : InstState :=
  { dbInstance := r, loader := none, client := none,
    plugin := none, config := none, running := false }

/-- Embeds `PluginInstance.__init__(db_instance)`: allocates the object and
registers it into the class-level cache (`self.cache[self.id] = self`)
before the constructor returns, i.e. before any further work occurs. -/
def PluginInstance.mkInstance (w : World) (r : DBPlugin) : Nat × World :=
  let tok := w.nextToken
  (tok,
    { w with
        nextToken := tok + 1,
        instances := (tok, PluginInstance.initState r) :: w.instances,
        cache := (r.id, tok) :: w.cache })

/-- Embeds the classmethod `PluginInstance.get(instance_id, db_instance)`:
return the cached object if present; otherwise use the passed record or
fetch it (`db_instance or DBPlugin.query.get(instance_id)`); if no record
exists return `None`, else construct a new instance. -/
def PluginInstance.get (w : World) (instance_id : Nat) (db_instance : Option DBPlugin) :
    Option Nat × World :=
  match w.cacheLookup instance_id with
  | some tok => (some tok, w)
  | none =>
    match (match db_instance with
           | some r => some r
           | none => DBPlugin.queryGet w.dbPlugins instance_id) with
    | none => (none, w)
    | some r =>
      let p := PluginInstance.mkInstance w r
      (some p.1, p.2)

/-- The sequential traversal behind the list comprehension in
`PluginInstance.all()`, threading the world through each `get`. -/
def PluginInstance.allFrom (w : World) : List DBPlugin → List (Option Nat) × World
  | [] => ([], w)
  | r :: rest =>
    let p := PluginInstance.get w r.id (some r)
    let q := PluginInstance.allFrom p.2 rest
    (p.1 :: q.1, q.2)

/-- Embeds `PluginInstance.all()`:
`[cls.get(plugin.id, plugin) for plugin in DBPlugin.query.all()]`. -/
def PluginInstance.all (w : World) : List (Option Nat) × World :=
  PluginInstance.allFrom w w.dbPlugins

/-- Embeds `PluginInstance.delete()`: `self.loader.references.remove(self)`
followed by `self.db.delete(self.db_instance)`.  `none` models a propagated
exception (unbound loader attribute, or `KeyError` from `set.remove`).
Note that the method touches neither the client's reference set nor the
cache. -/
def PluginInstance.delete (w : World) (tok : Nat) : Option World :=
  match w.inst tok with
  | none => none
  | some st =>
    match st.loader with
    | none => none
    | some lk =>
      match PluginLoader.find w.loaders lk with
      | none => none
      | some l =>
        match refsRemove l.references tok with
        | none => none
        | some refs =>
          let w1 := w.putLoader { l with references := refs }
          some { w1 with
                   dbPlugins := w1.dbPlugins.filter
                     (fun r => r.id != st.dbInstance.id) }

/-- Embeds `PluginInstance.load()`: resolve the loader by `type` (a
`KeyError` is caught: log, `enabled = False`, return); assign the client
from `Client.get(primary_user)` (falsy: log, `enabled = False`, return);
on success add the instance to both reverse-reference sets. -/
def PluginInstance.load (w : World) (tok : Nat) : Option (World × List Event) :=
  match w.inst tok with
  | none => none
  | some st =>
    match PluginLoader.find w.loaders st.dbInstance.type with
    | none =>
      some (w.putInst tok (st.setEnabled false), [Event.errNoLoader])
    | some l =>
      let st1 := { st with loader := some l.lid }
      match Client.get w.clients st.dbInstance.primary_user with
      | none =>
        some (w.putInst tok (({ st1 with client := none }).setEnabled false),
              [Event.errNoClient])
      | some c =>
        let st2 := { st1 with client := some c.cid }
        let w1 := (w.putInst tok st2).putLoader
          { l with references := refsAdd l.references tok }
        let w2 := w1.putClient { c with references := refsAdd c.references tok }
        some (w2, [Event.debugDepsLoaded])

/-- Outcome of `loader.read_file("base-config.yaml")`: success, an absence
caught by the `except (FileNotFoundError, KeyError)` clause, or another
exception that propagates. -/
inductive ReadFileRes where
  | ok
  | notFound
  | raiseOther
deriving DecidableEq, Repr

/-- Behaviour of the external calls made by `start()`: whether
`loader.load()` returns a class or raises, whether that class declares a
config class, the `read_file` outcome, and whether the plugin's `start`
hook raises. -/
structure StartEnv where
  loadOk : Bool
  configClass : Bool
  readFile : ReadFileRes
  startHookRaises : Bool
deriving DecidableEq, Repr

/-- Embeds the async method `PluginInstance.start()` on one instance
object.  Guard order follows the source: `running` first, then `enabled`.
`none` models an exception propagating to the caller (unbound
`self.loader`/`self.client` attribute, `loader.load()` raising, or an
uncaught `read_file` error).  The plugin object is constructed before the
hook runs; a raising hook is caught, logged and sets `enabled = False`
(leaving `self.plugin` assigned); on success `running` becomes true. -/
def PluginInstance.start (env : StartEnv) (st : InstState) :
    Option (InstState × List Event) :=
  if st.running then some (st, [Event.warnAlreadyStarted])
  else if !st.dbInstance.enabled then some (st, [Event.warnDisabled])
  else
    match st.loader with
    | none => none
    | some _ =>
      if !env.loadOk then none
      else
        let cfg? : Option (Option ConfigVal) :=
          if env.configClass then
            match env.readFile with
            | ReadFileRes.ok => some (some { hasBase := true })
            | ReadFileRes.notFound => some (some { hasBase := false })
            | ReadFileRes.raiseOther => none
          else some st.config
        match cfg? with
        | none => none
        | some cfg =>
          match st.client with
          | none => none
          | some _ =>
            let st1 := { st with config := cfg, plugin := some () }
            if env.startHookRaises then
              some (st1.setEnabled false, [Event.excStartFailed])
            else
              some ({ st1 with running := true }, [Event.infoStarted])

/-- The instance state at the moment `stop()` invokes the plugin's stop
hook: the source sets `self.running = False` on the line before
`await self.plugin.stop()`. -/
def PluginInstance.stopIntermediate (st : InstState) : InstState :=
  { st with running := false }

/-- Embeds the async method `PluginInstance.stop()`.  The stop hook is a
parameter observing the instance state at invocation time and telling
whether it raises; a raising hook is caught and logged, and
`self.plugin = None` runs either way. -/
def PluginInstance.stop (hookRaises : InstState → Bool) (st : InstState) :
    InstState × List Event :=
  if !st.running then (st, [Event.warnNotRunning])
  else
    let st1 := PluginInstance.stopIntermediate st
    let ev := if hookRaises st1 then [Event.debugStopping, Event.excStopFailed]
              else [Event.debugStopping]
    ({ st1 with plugin := none }, ev)

/-- World-level wrapper running `start()` on the instance object named by
`tok` and writing the mutated object back. -/
def World.start (env : StartEnv) (w : World) (tok : Nat) :
    Option (World × List Event) :=
  match w.inst tok with
  | none => none
  | some st =>
    match PluginInstance.start env st with
    | none => none
    | some p => some (w.putInst tok p.1, p.2)

/-- The runtime invariant exactly as the spec states it: `running == true`
implies a bound loader, a bound client and a live plugin runtime object
all exist; `running == false` implies the plugin runtime object is
absent. -/
def InstState.invariantSpec (st : InstState) : Prop :=
  (st.running = true →
    st.loader.isSome = true ∧ st.client.isSome = true ∧ st.plugin.isSome = true) ∧
  (st.running = false → st.plugin = none)

/-- The amended runtime invariant: the absent-when-not-running clause is
weakened to allow a disabled instance to retain its plugin object, which is
what a `start()` whose hook raises leaves behind. -/
def InstState.invariantAmended (st : InstState) : Prop :=
  (st.running = true →
    st.loader.isSome = true ∧ st.client.isSome = true ∧ st.plugin.isSome = true) ∧
  (st.running = false → st.plugin = none ∨ st.dbInstance.enabled = false)

instance (st : InstState) : Decidable st.invariantSpec := by
  unfold InstState.invariantSpec
  infer_instance

instance (st : InstState) : Decidable st.invariantAmended := by
  unfold InstState.invariantAmended
  infer_instance

/-- A concrete running instance used to exercise `stop()`. -/
def stStopW : InstState :=
  { dbInstance := { id := 7, type := 8, enabled := true, primary_user := 9,
                    config := 0 },
    loader := some 8, client := some 9, plugin := some (), config := none,
    running := true }

/-- A concrete loaded, enabled, non-running instance. -/
def stC2 : InstState :=
  { dbInstance := { id := 10, type := 1, enabled := true, primary_user := 2,
                    config := 0 },
    loader := some 1, client := some 2, plugin := none, config := none,
    running := false }

/-- A concrete external environment in which the plugin declares no config
class and its start hook raises. -/
def envC2 : StartEnv :=
  { loadOk := true, configClass := false, readFile := ReadFileRes.ok,
    startHookRaises := true }

/-- The state `start envC2` leaves `stC2` in: disabled, not running, but
with the constructed plugin runtime object still assigned. -/
def stC2' : InstState :=
  { dbInstance := { id := 10, type := 1, enabled := false, primary_user := 2,
                    config := 0 },
    loader := some 1, client := some 2, plugin := some (), config := none,
    running := false }

/-- A concrete running instance: loader, client and plugin all bound. -/
def stC2run : InstState :=
  { dbInstance := { id := 11, type := 1, enabled := true, primary_user := 2,
                    config := 0 },
    loader := some 1, client := some 2, plugin := some (), config := none,
    running := true }

/-- A world holding the running instance `stC2run` (token 0) in which the
loader registry resolves its type but the client registry no longer has
its primary user. -/
def wC2L : World :=
  { dbPlugins := [{ id := 11, type := 1, enabled := true, primary_user := 2,
                    config := 0 }],
    cache := [(11, 0)], instances := [(0, stC2run)],
    loaders := [{ lid := 1, references := [0] }], clients := [],
    nextToken := 1 }

/-- The state `load` leaves the running instance in when the client
resolution fails: still running, plugin still assigned, but the client
reference overwritten with `None` and the instance disabled. -/
def stC2run' : InstState :=
  { dbInstance := { id := 11, type := 1, enabled := false, primary_user := 2,
                    config := 0 },
    loader := some 1, client := none, plugin := some (), config := none,
    running := true }

/-- The world `load` produces from `wC2L`. -/
def wC2L' : World :=
  { dbPlugins := [{ id := 11, type := 1, enabled := false, primary_user := 2,
                    config := 0 }],
    cache := [(11, 0)], instances := [(0, stC2run')],
    loaders := [{ lid := 1, references := [0] }], clients := [],
    nextToken := 1 }

/-- A concrete persisted record for the delete example. -/
def rC1 : DBPlugin :=
  { id := 30, type := 1, enabled := true, primary_user := 2, config := 0 }

/-- The delete example's loaded instance: loader and client bound. -/
def stC1 : InstState :=
  { dbInstance := rC1, loader := some 1, client := some 2, plugin := none,
    config := none, running := false }

/-- A world in which instance 30 (token 0) has been loaded: it sits in the
cache, in the table, and in both the loader's and the client's
reverse-reference sets. -/
def wC1 : World :=
  { dbPlugins := [rC1], cache := [(30, 0)], instances := [(0, stC1)],
    loaders := [{ lid := 1, references := [0] }],
    clients := [{ cid := 2, references := [0] }], nextToken := 1 }

/-- The world `delete` produces from `wC1`: record gone, loader references
emptied, but the client's reverse-reference set still holds token 0. -/
def wC1del : World :=
  { dbPlugins := [], cache := [(30, 0)], instances := [(0, stC1)],
    loaders := [{ lid := 1, references := [] }],
    clients := [{ cid := 2, references := [0] }], nextToken := 1 }

/-- A concrete persisted record for the cache-retention example. -/
def rC10 : DBPlugin :=
  { id := 40, type := 3, enabled := true, primary_user := 4, config := 0 }

/-- The cache-retention example's loaded instance. -/
def stC10 : InstState :=
  { dbInstance := rC10, loader := some 3, client := some 4, plugin := none,
    config := none, running := false }

/-- A world in which instance 40 (token 0) has been loaded. -/
def wC10 : World :=
  { dbPlugins := [rC10], cache := [(40, 0)], instances := [(0, stC10)],
    loaders := [{ lid := 3, references := [0] }],
    clients := [{ cid := 4, references := [0] }], nextToken := 1 }

/-- The world `delete` produces from `wC10`. -/
def wC10del : World :=
  { dbPlugins := [], cache := [(40, 0)], instances := [(0, stC10)],
    loaders := [{ lid := 3, references := [] }],
    clients := [{ cid := 4, references := [0] }], nextToken := 1 }

/-- A concrete persisted record for the registry example. -/
def rC3 : DBPlugin :=
  { id := 50, type := 1, enabled := true, primary_user := 2, config := 0 }

/-- A world in which instance 50 is cached as token 0. -/
def wC3 : World :=
  { dbPlugins := [rC3], cache := [(50, 0)],
    instances := [(0, PluginInstance.initState rC3)],
    loaders := [], clients := [], nextToken := 1 }

/-- A concrete persisted record for the failed-start example. -/
def rC4 : DBPlugin :=
  { id := 60, type := 5, enabled := true, primary_user := 6, config := 0 }

/-- The failed-start example's loaded, enabled, non-running instance. -/
def stC4 : InstState :=
  { dbInstance := rC4, loader := some 5, client := some 6, plugin := none,
    config := none, running := false }

/-- A world in which instance 60 (token 0) has been loaded. -/
def wC4 : World :=
  { dbPlugins := [rC4], cache := [(60, 0)], instances := [(0, stC4)],
    loaders := [{ lid := 5, references := [0] }],
    clients := [{ cid := 6, references := [0] }], nextToken := 1 }

/-- An environment whose plugin declares a config class with no packaged
base file and whose start hook raises. -/
def envC4 : StartEnv :=
  { loadOk := true, configClass := true, readFile := ReadFileRes.notFound,
    startHookRaises := true }

/-- A concrete persisted record for the load example. -/
def rC5 : DBPlugin :=
  { id := 20, type := 1, enabled := true, primary_user := 2, config := 0 }

/-- A world with a freshly constructed (not yet loaded) instance 20 as
token 0, a matching loader and a matching client with empty reference
sets. -/
def wC5 : World :=
  { dbPlugins := [rC5], cache := [(20, 0)],
    instances := [(0, PluginInstance.initState rC5)],
    loaders := [{ lid := 1, references := [] }],
    clients := [{ cid := 2, references := [] }], nextToken := 1 }

/-! ### Generic association-list lemmas -/

theorem find?_replaceKey {α : Type} (key : α → Nat) (k : Nat) (y : α)
    (hy : key y = k) :
    ∀ (l : List α) (x : α), l.find? (fun a => key a == k) = some x →
      (l.map (fun a => if key a == k then y else a)).find? (fun a => key a == k) =
        some y := by
  intro l
  induction l with
  | nil => intro x h; simp [List.find?] at h
  | cons p rest ih =>
    intro x h
    by_cases hp : key p = k
    · simp [List.find?, hp, hy]
    · have hp' : (key p == k) = false := by simp [hp]
      simp only [List.map_cons, hp', if_false]
      rw [List.find?_cons_of_neg _ (by simp [hp])] at h ⊢
      exact ih x h

theorem inst_putInst (w : World) (tok : Nat) (st st' : InstState)
    (h : w.inst tok = some st) :
    (w.putInst tok st').inst tok = some st' := by
  unfold World.inst at h ⊢
  unfold World.putInst
  simp only
  obtain ⟨p, hp, hp2⟩ : ∃ p, w.instances.find? (·.1 == tok) = some p ∧ p.2 = st := by
    cases hfind : w.instances.find? (·.1 == tok) with
    | none => rw [hfind] at h; simp at h
    | some p => rw [hfind] at h; simp at h; exact ⟨p, rfl, h⟩
  have := find?_replaceKey (fun q : Nat × InstState => q.1) tok (tok, st') rfl
    w.instances p hp
  simp only at this
  rw [this]
  rfl

/-! ### Claim C7: start() is a warning no-op when already running or disabled -/

/-- C7: `start()` called while `running` is already true, or while `enabled`
is false, only logs a warning and returns: no plugin runtime object is
constructed, no hook is invoked, and the instance state (including
`running` and `enabled`) is returned unchanged, independently of the
external environment. -/
theorem start_noop_when_running_or_disabled (env : StartEnv) (st : InstState) :
    (st.running = true →
      PluginInstance.start env st = some (st, [Event.warnAlreadyStarted])) ∧
    (st.running = false → st.dbInstance.enabled = false →
      PluginInstance.start env st = some (st, [Event.warnDisabled])) := by
  constructor
  · intro h
    simp [PluginInstance.start, h]
  · intro h he
    simp [PluginInstance.start, h, he]

/-- Witness for C7: both no-op branches evaluated at concrete instances. -/
theorem start_noop_when_running_or_disabled_witness :
    PluginInstance.start
      { loadOk := true, configClass := true, readFile := ReadFileRes.ok,
        startHookRaises := false }
      { dbInstance := { id := 1, type := 2, enabled := true, primary_user := 3,
                        config := 0 },
        loader := some 2, client := some 3, plugin := some (), config := none,
        running := true } =
      some ({ dbInstance := { id := 1, type := 2, enabled := true,
                              primary_user := 3, config := 0 },
              loader := some 2, client := some 3, plugin := some (),
              config := none, running := true },
            [Event.warnAlreadyStarted]) :=
  (start_noop_when_running_or_disabled
    { loadOk := true, configClass := true, readFile := ReadFileRes.ok,
      startHookRaises := false }
    { dbInstance := { id := 1, type := 2, enabled := true, primary_user := 3,
                      config := 0 },
      loader := some 2, client := some 3, plugin := some (), config := none,
      running := true }).1 rfl

/-! ### Claim C8: stop() is a warning no-op when not running -/

/-- C8: `stop()` on an instance with `running = false` (including one never
started) emits exactly the warning log and leaves the whole instance state
unchanged — in particular the plugin runtime object reference and the
`enabled` flag — for every possible stop hook. -/
theorem stop_noop_when_not_running (hook : InstState → Bool) (st : InstState)
    (h : st.running = false) :
    PluginInstance.stop hook st = (st, [Event.warnNotRunning]) := by
  simp [PluginInstance.stop, h]

/-- Witness for C8: a never-started instance evaluated concretely. -/
theorem stop_noop_when_not_running_witness :
    PluginInstance.stop (fun _ => true)
      { dbInstance := { id := 4, type := 5, enabled := true, primary_user := 6,
                        config := 0 },
        loader := some 5, client := some 6, plugin := none, config := none,
        running := false } =
      ({ dbInstance := { id := 4, type := 5, enabled := true, primary_user := 6,
                         config := 0 },
         loader := some 5, client := some 6, plugin := none, config := none,
         running := false },
       [Event.warnNotRunning]) :=
  stop_noop_when_not_running (fun _ => true)
    { dbInstance := { id := 4, type := 5, enabled := true, primary_user := 6,
                      config := 0 },
      loader := some 5, client := some 6, plugin := none, config := none,
      running := false } rfl

/-! ### Claim C6: stop() clears running before the hook, contains hook faults -/

/-- C6: on a running instance, `stop()` sets `running` to false before the
hook runs — the state the hook observes is `stopIntermediate st`, whose
`running` is false — and whatever the hook does (raise or return), the
final state has `running = false`, the plugin runtime object reference
cleared, and `enabled` unchanged; a raising hook only adds a logged
exception event. -/
theorem stop_semantics (hook : InstState → Bool) (st : InstState)
    (h : st.running = true) :
    (PluginInstance.stopIntermediate st).running = false ∧
    PluginInstance.stop hook st =
      ({ PluginInstance.stopIntermediate st with plugin := none },
        if hook (PluginInstance.stopIntermediate st) then
          [Event.debugStopping, Event.excStopFailed]
        else [Event.debugStopping]) ∧
    (PluginInstance.stop hook st).1.running = false ∧
    (PluginInstance.stop hook st).1.plugin = none ∧
    (PluginInstance.stop hook st).1.dbInstance.enabled = st.dbInstance.enabled := by
  refine ⟨rfl, ?_, ?_, ?_, ?_⟩ <;>
    simp [PluginInstance.stop, PluginInstance.stopIntermediate, h]

/-- Witness for C6: a running instance stopped with a raising hook. -/
theorem stop_semantics_witness :
    (PluginInstance.stopIntermediate stStopW).running = false ∧
    PluginInstance.stop (fun _ => true) stStopW =
      ({ PluginInstance.stopIntermediate stStopW with plugin := none },
        if (fun _ : InstState => true) (PluginInstance.stopIntermediate stStopW) then
          [Event.debugStopping, Event.excStopFailed]
        else [Event.debugStopping]) ∧
    (PluginInstance.stop (fun _ => true) stStopW).1.running = false ∧
    (PluginInstance.stop (fun _ => true) stStopW).1.plugin = none ∧
    (PluginInstance.stop (fun _ => true) stStopW).1.dbInstance.enabled =
      stStopW.dbInstance.enabled :=
  stop_semantics (fun _ => true) stStopW rfl

/-! ### Claim C2: the running/plugin invariant -/

/-- Counterexample for C2, in two parts, each at a concrete input.
First, the invariant exactly as the spec states it holds of the loaded,
enabled, non-running instance `stC2`, yet the `start()` path on which the
plugin's start hook raises produces a state violating it: `running` is
false but the constructed plugin runtime object is still assigned.
Second, `load()` is not covered either when the instance is already
running: on `wC2L`, where the running instance's client has become
unavailable, `load()` overwrites the client reference with `None` while
`running` stays true, violating the spec's invariant (and even its
amended form), which forces the amended claim to restrict `load`'s
preservation to non-running instances.  So not every operation preserves
the spec's invariant, and the raising-start-hook path and the
load-while-running path are the two offenders. -/
theorem spec_invariant_not_preserved :
    (InstState.invariantSpec stC2 ∧
      PluginInstance.start envC2 stC2 = some (stC2', [Event.excStartFailed]) ∧
      ¬ InstState.invariantSpec stC2') ∧
    (InstState.invariantSpec stC2run ∧
      PluginInstance.load wC2L 0 = some (wC2L', [Event.errNoClient]) ∧
      wC2L'.inst 0 = some stC2run' ∧
      stC2run'.running = true ∧ stC2run'.client = none ∧
      ¬ InstState.invariantSpec stC2run' ∧
      ¬ InstState.invariantAmended stC2run') := by
  constructor
  · refine ⟨by decide, by decide, ?_⟩
    intro h
    exact absurd (h.2 (by decide)) (by decide)
  · refine ⟨by decide, by decide, by decide, by decide, by decide, ?_, ?_⟩
    · intro h
      exact absurd (h.1 (by decide)).2.1 (by decide)
    · intro h
      exact absurd (h.1 (by decide)).2.1 (by decide)

/-- C2 amended: the invariant with the absent-when-not-running clause
weakened to allow a disabled instance to keep its plugin object is
established by the constructor and preserved by `load` (on a non-running
instance), `start` (both hook outcomes), `stop` (both hook outcomes), and
`delete` (which never touches any instance object's state). -/
theorem lifecycle_preserves_amended_invariant :
    (∀ r : DBPlugin, (PluginInstance.initState r).invariantAmended) ∧
    (∀ (w : World) (tok : Nat) (st : InstState) (w' : World) (ev : List Event)
        (st' : InstState),
        w.inst tok = some st → st.running = false → st.invariantAmended →
        PluginInstance.load w tok = some (w', ev) →
        w'.inst tok = some st' → st'.invariantAmended) ∧
    (∀ (env : StartEnv) (st st' : InstState) (ev : List Event),
        st.invariantAmended →
        PluginInstance.start env st = some (st', ev) → st'.invariantAmended) ∧
    (∀ (hook : InstState → Bool) (st : InstState),
        st.invariantAmended → (PluginInstance.stop hook st).1.invariantAmended) ∧
    (∀ (w : World) (tok : Nat) (w' : World),
        PluginInstance.delete w tok = some w' → w'.instances = w.instances) := by
  refine ⟨?_, ?_, ?_, ?_, ?_⟩
  · intro r
    simp [PluginInstance.initState, InstState.invariantAmended]
  · intro w tok st w' ev st' hi hrun hinv hld hst'
    unfold PluginInstance.load at hld
    rw [hi] at hld
    dsimp only at hld
    rcases hinv with ⟨-, hinv2⟩
    have hpe := hinv2 hrun
    cases hf : PluginLoader.find w.loaders st.dbInstance.type with
    | none =>
      rw [hf] at hld
      simp only [Option.some.injEq, Prod.mk.injEq] at hld
      obtain ⟨rfl, -⟩ := hld
      rw [inst_putInst w tok st _ hi] at hst'
      obtain rfl := Option.some.inj hst'
      exact ⟨by simp [InstState.setEnabled, hrun],
        fun _ => Or.inr (by simp [InstState.setEnabled])⟩
    | some l =>
      rw [hf] at hld
      cases hc : Client.get w.clients st.dbInstance.primary_user with
      | none =>
        rw [hc] at hld
        dsimp only at hld
        simp only [Option.some.injEq, Prod.mk.injEq] at hld
        obtain ⟨rfl, -⟩ := hld
        rw [inst_putInst w tok st _ hi] at hst'
        obtain rfl := Option.some.inj hst'
        exact ⟨by simp [InstState.setEnabled, hrun],
          fun _ => Or.inr (by simp [InstState.setEnabled])⟩
      | some c =>
        rw [hc] at hld
        dsimp only at hld
        simp only [Option.some.injEq, Prod.mk.injEq] at hld
        obtain ⟨rfl, -⟩ := hld
        have hput : (((w.putInst tok
            { st with loader := some l.lid, client := some c.cid }).putLoader
              { l with references := refsAdd l.references tok }).putClient
              { c with references := refsAdd c.references tok }).inst tok =
            some { st with loader := some l.lid, client := some c.cid } := by
          have h2 := inst_putInst w tok st
            { st with loader := some l.lid, client := some c.cid } hi
          simpa [World.inst, World.putLoader, World.putClient] using h2
        rw [hput] at hst'
        obtain rfl := Option.some.inj hst'
        refine ⟨by simp [hrun], fun _ => ?_⟩
        simpa using hpe
  · intro env st st' ev hinv hstart
    unfold PluginInstance.start at hstart
    by_cases hr : st.running = true
    · simp only [hr, if_true] at hstart
      simp only [Option.some.injEq, Prod.mk.injEq] at hstart
      obtain ⟨rfl, -⟩ := hstart
      exact hinv
    · have hr' : st.running = false := by
        cases h : st.running
        · rfl
        · exact absurd h hr
      by_cases he : st.dbInstance.enabled = true
      · simp only [hr', he, Bool.not_true, if_false, Bool.false_eq_true] at hstart
        cases hl : st.loader with
        | none => rw [hl] at hstart; exact Option.noConfusion hstart
        | some lk =>
          rw [hl] at hstart
          dsimp only at hstart
          cases hok : env.loadOk with
          | false =>
            rw [hok] at hstart
            simp only [Bool.not_false, if_true] at hstart
            exact Option.noConfusion hstart
          | true =>
            rw [hok] at hstart
            simp only [Bool.not_true, if_false, Bool.false_eq_true] at hstart
            rcases hcc : env.configClass with _ | _ <;>
              rcases hrfv : env.readFile with _ | _ | _ <;>
                simp only [hcc, hrfv, if_true, if_false, Bool.false_eq_true] at hstart <;>
                first
                  | exact Option.noConfusion hstart
                  | (cases hc : st.client with
                     | none =>
                       rw [hc] at hstart
                       exact Option.noConfusion hstart
                     | some ck =>
                       rw [hc] at hstart
                       dsimp only at hstart
                       cases hsr : env.startHookRaises with
                       | true =>
                         rw [hsr] at hstart
                         simp only [if_true, Option.some.injEq,
                           Prod.mk.injEq] at hstart
                         obtain ⟨rfl, -⟩ := hstart
                         exact ⟨by simp [InstState.setEnabled, hr'],
                           fun _ => Or.inr (by simp [InstState.setEnabled])⟩
                       | false =>
                         rw [hsr] at hstart
                         simp only [Bool.false_eq_true, if_false,
                           Option.some.injEq, Prod.mk.injEq] at hstart
                         obtain ⟨rfl, -⟩ := hstart
                         exact ⟨fun _ => by simp [hl, hc], by simp⟩)
      · have he' : st.dbInstance.enabled = false := by
          cases h : st.dbInstance.enabled
          · rfl
          · exact absurd h he
        simp only [hr', he', Bool.not_false, if_true, if_false,
          Bool.false_eq_true, Option.some.injEq, Prod.mk.injEq] at hstart
        obtain ⟨rfl, -⟩ := hstart
        exact hinv
  · intro hook st hinv
    cases hr : st.running with
    | false => simpa [PluginInstance.stop, hr] using hinv
    | true =>
      simp [PluginInstance.stop, PluginInstance.stopIntermediate, hr,
        InstState.invariantAmended]
  · intro w tok w' hdel
    unfold PluginInstance.delete at hdel
    cases hi : w.inst tok with
    | none => rw [hi] at hdel; exact Option.noConfusion hdel
    | some st =>
      rw [hi] at hdel
      dsimp only at hdel
      cases hl : st.loader with
      | none => rw [hl] at hdel; exact Option.noConfusion hdel
      | some lk =>
        rw [hl] at hdel
        dsimp only at hdel
        cases hf : PluginLoader.find w.loaders lk with
        | none => rw [hf] at hdel; exact Option.noConfusion hdel
        | some l =>
          rw [hf] at hdel
          dsimp only at hdel
          cases hrm : refsRemove l.references tok with
          | none => rw [hrm] at hdel; exact Option.noConfusion hdel
          | some refs =>
            rw [hrm] at hdel
            dsimp only at hdel
            obtain rfl := Option.some.inj hdel
            rfl

/-- Witness for C2's amended invariant: the failed-start path at the
concrete counterexample instance lands in a state satisfying the amended
invariant. -/
theorem lifecycle_preserves_amended_invariant_witness :
    stC2'.invariantAmended :=
  lifecycle_preserves_amended_invariant.2.2.1 envC2 stC2 stC2'
    [Event.excStartFailed] (by decide) (by decide)

/-! ### Further helper lemmas -/

theorem mem_refsAdd (refs : List Nat) (tok : Nat) : tok ∈ refsAdd refs tok := by
  unfold refsAdd
  by_cases h : tok ∈ refs
  · simp [h]
  · simp [h]

theorem queryGet_filter_ne (dbs : List DBPlugin) (i : Nat) :
    DBPlugin.queryGet (dbs.filter (fun r => r.id != i)) i = none := by
  unfold DBPlugin.queryGet
  rw [List.find?_eq_none]
  intro a ha
  have h2 := (List.mem_filter.mp ha).2
  simp at h2 ⊢
  exact h2

theorem cacheLookup_mk (w : World) (r : DBPlugin) (j t : Nat)
    (hne : r.id ≠ j) (h : w.cacheLookup j = some t) :
    ((PluginInstance.mkInstance w r).2).cacheLookup j = some t := by
  unfold World.cacheLookup at h
  unfold PluginInstance.mkInstance World.cacheLookup
  dsimp only
  rw [List.find?_cons_of_neg _ (by simp [hne])]
  exact h

theorem get_preserves_cacheLookup (w : World) (i : Nat) (d : Option DBPlugin)
    (hd : ∀ r, d = some r → r.id = i) (j t : Nat) (h : w.cacheLookup j = some t) :
    ((PluginInstance.get w i d).2).cacheLookup j = some t := by
  unfold PluginInstance.get
  cases hc : w.cacheLookup i with
  | some tok => exact h
  | none =>
    have hij : i ≠ j := by
      intro hij
      rw [hij] at hc
      rw [hc] at h
      exact Option.noConfusion h
    cases d with
    | some r =>
      dsimp only
      exact cacheLookup_mk w r j t (fun hrj => hij ((hd r rfl) ▸ hrj)) h
    | none =>
      cases hq : DBPlugin.queryGet w.dbPlugins i with
      | none => exact h
      | some r =>
        dsimp only
        have hr : r.id = i := by
          have := List.find?_some hq
          simpa using this
        exact cacheLookup_mk w r j t (fun hrj => hij (hr ▸ hrj)) h

theorem allFrom_mem (i t : Nat) :
    ∀ (rows : List DBPlugin) (w : World), w.cacheLookup i = some t →
      (∃ r, r ∈ rows ∧ r.id = i) → some t ∈ (PluginInstance.allFrom w rows).1 := by
  intro rows
  induction rows with
  | nil =>
    rintro w h ⟨r, hr, -⟩
    cases hr
  | cons r rest ih =>
    rintro w h ⟨r0, hr0, hid⟩
    unfold PluginInstance.allFrom
    dsimp only
    rcases List.mem_cons.mp hr0 with rfl | hmem
    · have hget : PluginInstance.get w r0.id (some r0) = (some t, w) := by
        unfold PluginInstance.get
        rw [hid, h]
      rw [hget]
      exact List.mem_cons_self _ _
    · apply List.mem_cons_of_mem
      apply ih
      · exact get_preserves_cacheLookup w r.id (some r)
          (fun r' hr' => by cases hr'; rfl) i t h
      · exact ⟨r0, hmem, hid⟩

/-! ### Claim C1: delete detaches only the loader's reference set -/

/-- C1 is violated by the code: on a fully loaded instance (present in both
reverse-reference sets), `delete` removes the persisted record and the
loader's reference, and the instance indeed disappears from `all()`, but
the Client's reverse-reference set still contains the instance — the
method never touches `self.client.references`. -/
theorem delete_keeps_client_reference :
    PluginInstance.delete wC1 0 = some wC1del ∧
    PluginLoader.find wC1del.loaders 1 = some { lid := 1, references := [] } ∧
    Client.get wC1del.clients 2 = some { cid := 2, references := [0] } ∧
    DBPlugin.queryGet wC1del.dbPlugins 30 = none ∧
    (PluginInstance.all wC1del).1 = [] := by decide

/-! ### Claim C3: registry get caching semantics -/

/-- C3: `get(id)` returns the cached instance when one exists (leaving the
world untouched); when a first call returns an object, the id is in the
cache and a second call returns the identical object; `get(id)` returns
absent exactly when neither a cached instance nor a persisted record
exists; and the constructor registers the new object into the cache before
returning, so any reentrant lookup observes it. -/
theorem get_registry_semantics (w : World) (i : Nat) :
    (∀ d t, w.cacheLookup i = some t → PluginInstance.get w i d = (some t, w)) ∧
    (∀ t w1, PluginInstance.get w i none = (some t, w1) →
      w1.cacheLookup i = some t ∧ PluginInstance.get w1 i none = (some t, w1)) ∧
    ((PluginInstance.get w i none).1 = none ↔
      w.cacheLookup i = none ∧ DBPlugin.queryGet w.dbPlugins i = none) ∧
    (∀ r : DBPlugin,
      ((PluginInstance.mkInstance w r).2).cacheLookup r.id =
        some (PluginInstance.mkInstance w r).1) := by
  refine ⟨?_, ?_, ?_, ?_⟩
  · intro d t h
    unfold PluginInstance.get
    rw [h]
  · intro t w1 hg
    unfold PluginInstance.get at hg
    cases hc : w.cacheLookup i with
    | some t0 =>
      rw [hc] at hg
      dsimp only at hg
      simp only [Prod.mk.injEq, Option.some.injEq] at hg
      obtain ⟨rfl, rfl⟩ := hg
      refine ⟨hc, ?_⟩
      unfold PluginInstance.get
      rw [hc]
    | none =>
      rw [hc] at hg
      cases hq : DBPlugin.queryGet w.dbPlugins i with
      | none =>
        rw [hq] at hg
        dsimp only at hg
        simp at hg
      | some r =>
        rw [hq] at hg
        dsimp only at hg
        simp only [Prod.mk.injEq, Option.some.injEq] at hg
        obtain ⟨rfl, rfl⟩ := hg
        have hr : r.id = i := by
          have := List.find?_some hq
          simpa using this
        have hlook : ((PluginInstance.mkInstance w r).2).cacheLookup i =
            some (PluginInstance.mkInstance w r).1 := by
          unfold PluginInstance.mkInstance World.cacheLookup
          dsimp only
          rw [List.find?_cons_of_pos _ (by simp [hr])]
          rfl
        refine ⟨hlook, ?_⟩
        unfold PluginInstance.get
        rw [hlook]
  · constructor
    · intro hn
      cases hc : w.cacheLookup i with
      | some t0 =>
        unfold PluginInstance.get at hn
        rw [hc] at hn
        simp at hn
      | none =>
        cases hq : DBPlugin.queryGet w.dbPlugins i with
        | some r =>
          unfold PluginInstance.get at hn
          rw [hc, hq] at hn
          simp at hn
        | none => exact ⟨rfl, rfl⟩
    · rintro ⟨hc, hq⟩
      unfold PluginInstance.get
      rw [hc, hq]
  · intro r
    unfold PluginInstance.mkInstance World.cacheLookup
    dsimp only
    rw [List.find?_cons_of_pos _ (by simp)]
    rfl

/-- Witness for C3: a cached instance is returned unchanged. -/
theorem get_registry_semantics_witness :
    PluginInstance.get wC3 50 none = (some 0, wC3) :=
  (get_registry_semantics wC3 50).1 none 0 (by decide)

/-! ### Claim C4: a raising start hook is contained -/

/-- C4: on an enabled, non-running, loaded instance, when the external
pre-hook steps succeed and the plugin's start hook raises, `start()`
returns normally (the exception is caught), `enabled` becomes false,
`running` stays false, and the instance still appears in `all()`. -/
theorem start_hook_raise_contained (env : StartEnv) (w : World) (tok : Nat)
    (st : InstState)
    (hi : w.inst tok = some st)
    (hrun : st.running = false)
    (hen : st.dbInstance.enabled = true)
    (hldr : st.loader.isSome = true)
    (hcl : st.client.isSome = true)
    (hok : env.loadOk = true)
    (hrf : env.readFile ≠ ReadFileRes.raiseOther)
    (hraise : env.startHookRaises = true)
    (hcache : w.cacheLookup st.dbInstance.id = some tok)
    (hrow : ∃ r, r ∈ w.dbPlugins ∧ r.id = st.dbInstance.id) :
    ∃ w' st', World.start env w tok = some (w', [Event.excStartFailed]) ∧
      w'.inst tok = some st' ∧
      st'.dbInstance.enabled = false ∧
      st'.running = false ∧
      some tok ∈ (PluginInstance.all w').1 := by
  obtain ⟨lk, hlk⟩ := Option.isSome_iff_exists.mp hldr
  obtain ⟨ck, hck⟩ := Option.isSome_iff_exists.mp hcl
  have hstart : ∃ cfgv : Option ConfigVal,
      PluginInstance.start env st =
        some ((({ st with config := cfgv, plugin := some () } : InstState
          ).setEnabled false), [Event.excStartFailed]) := by
    rcases hcc : env.configClass with _ | _
    · exact ⟨st.config,
        by simp [PluginInstance.start, hrun, hen, hlk, hck, hok, hraise, hcc]⟩
    · rcases hrfv : env.readFile with _ | _ | _
      · exact ⟨some { hasBase := true },
          by simp [PluginInstance.start, hrun, hen, hlk, hck, hok, hraise, hcc,
            hrfv]⟩
      · exact ⟨some { hasBase := false },
          by simp [PluginInstance.start, hrun, hen, hlk, hck, hok, hraise, hcc,
            hrfv]⟩
      · exact absurd hrfv hrf
  obtain ⟨cfgv, hst⟩ := hstart
  set stX : InstState :=
    ({ st with config := cfgv, plugin := some () } : InstState).setEnabled false
    with hstX
  refine ⟨w.putInst tok stX, stX, ?_, ?_, ?_, ?_, ?_⟩
  · unfold World.start
    rw [hi]
    dsimp only
    rw [hst]
  · exact inst_putInst w tok st stX hi
  · simp [hstX, InstState.setEnabled]
  · simp [hstX, InstState.setEnabled, hrun]
  · have hcache' : (w.putInst tok stX).cacheLookup st.dbInstance.id = some tok :=
      hcache
    have hid : stX.dbInstance.id = st.dbInstance.id := by
      simp [hstX, InstState.setEnabled]
    have hrow' : ∃ r, r ∈ (w.putInst tok stX).dbPlugins ∧
        r.id = st.dbInstance.id := by
      obtain ⟨r, hmem, hrid⟩ := hrow
      refine ⟨if r.id == stX.dbInstance.id then stX.dbInstance else r, ?_, ?_⟩
      · exact List.mem_map_of_mem _ hmem
      · simp [hid, hrid]
    exact allFrom_mem st.dbInstance.id tok (w.putInst tok stX).dbPlugins
      (w.putInst tok stX) hcache' hrow'

/-- Witness for C4: the failed start evaluated on a concrete loaded world. -/
theorem start_hook_raise_contained_witness :
    ∃ w' st', World.start envC4 wC4 0 = some (w', [Event.excStartFailed]) ∧
      w'.inst 0 = some st' ∧
      st'.dbInstance.enabled = false ∧
      st'.running = false ∧
      some 0 ∈ (PluginInstance.all w').1 :=
  start_hook_raise_contained envC4 wC4 0 stC4 (by decide) (by decide)
    (by decide) (by decide) (by decide) (by decide) (by decide) (by decide)
    (by decide) ⟨rC4, by decide, by decide⟩

/-! ### Claim C5: load resolution failures are contained, success wires both sets -/

/-- C5: `load()` never lets an exception reach its caller.  When the loader
resolution fails, or the loader resolves but the client does not, the
instance is marked `enabled = false` and neither the loader registry nor
the client registry changes (so the instance enters no reverse-reference
set).  When both resolve, the instance is added to both collaborators'
reverse-reference sets and its record — `enabled` included — is unchanged. -/
theorem load_resolution_containment (w : World) (tok : Nat) (st : InstState)
    (hi : w.inst tok = some st) :
    (PluginLoader.find w.loaders st.dbInstance.type = none →
      ∃ w', PluginInstance.load w tok = some (w', [Event.errNoLoader]) ∧
        w'.inst tok = some (st.setEnabled false) ∧
        w'.loaders = w.loaders ∧ w'.clients = w.clients) ∧
    (∀ l, PluginLoader.find w.loaders st.dbInstance.type = some l →
      Client.get w.clients st.dbInstance.primary_user = none →
      ∃ w', PluginInstance.load w tok = some (w', [Event.errNoClient]) ∧
        w'.inst tok = some
          (({ st with loader := some l.lid, client := none } : InstState
            ).setEnabled false) ∧
        w'.loaders = w.loaders ∧ w'.clients = w.clients) ∧
    (∀ l c, PluginLoader.find w.loaders st.dbInstance.type = some l →
      Client.get w.clients st.dbInstance.primary_user = some c →
      ∃ w', PluginInstance.load w tok = some (w', [Event.debugDepsLoaded]) ∧
        w'.inst tok = some
          { st with loader := some l.lid, client := some c.cid } ∧
        (∃ l', PluginLoader.find w'.loaders l.lid = some l' ∧
          tok ∈ l'.references) ∧
        (∃ c', Client.get w'.clients c.cid = some c' ∧ tok ∈ c'.references)) := by
  refine ⟨?_, ?_, ?_⟩
  · intro hf
    refine ⟨w.putInst tok (st.setEnabled false), ?_, ?_, rfl, rfl⟩
    · unfold PluginInstance.load
      rw [hi]
      dsimp only
      rw [hf]
    · exact inst_putInst w tok st _ hi
  · intro l hf hc
    refine ⟨w.putInst tok
      (({ st with loader := some l.lid, client := none } : InstState
        ).setEnabled false), ?_, ?_, rfl, rfl⟩
    · unfold PluginInstance.load
      rw [hi]
      dsimp only
      rw [hf]
      dsimp only
      rw [hc]
    · exact inst_putInst w tok st _ hi
  · intro l c hf hc
    have hlid : l.lid = st.dbInstance.type := by
      have := List.find?_some hf
      simpa using this
    have hcid : c.cid = st.dbInstance.primary_user := by
      have := List.find?_some hc
      simpa using this
    set st2 : InstState := { st with loader := some l.lid, client := some c.cid }
      with hst2
    set w2 : World := ((w.putInst tok st2).putLoader
        { l with references := refsAdd l.references tok }).putClient
        { c with references := refsAdd c.references tok } with hw2
    refine ⟨w2, ?_, ?_, ?_, ?_⟩
    · unfold PluginInstance.load
      rw [hi]
      dsimp only
      rw [hf]
      dsimp only
      rw [hc]
    · have h2 := inst_putInst w tok st st2 hi
      rw [hw2]
      exact h2
    · refine ⟨{ l with references := refsAdd l.references tok }, ?_,
        mem_refsAdd l.references tok⟩
      have hf' : w.loaders.find? (fun a => a.lid == l.lid) = some l := by
        rw [hlid]
        exact hf
      have := find?_replaceKey (fun a : PluginLoader => a.lid) l.lid
        { l with references := refsAdd l.references tok } rfl w.loaders l hf'
      exact this
    · refine ⟨{ c with references := refsAdd c.references tok }, ?_,
        mem_refsAdd c.references tok⟩
      have hc' : w.clients.find? (fun a => a.cid == c.cid) = some c := by
        rw [hcid]
        exact hc
      have := find?_replaceKey (fun a : Client => a.cid) c.cid
        { c with references := refsAdd c.references tok } rfl w.clients c hc'
      exact this

/-- Witness for C5: the success branch evaluated on a concrete world with a
matching loader and client. -/
theorem load_resolution_containment_witness :
    ∃ w', PluginInstance.load wC5 0 = some (w', [Event.debugDepsLoaded]) ∧
      w'.inst 0 = some
        { PluginInstance.initState rC5 with loader := some 1, client := some 2 } ∧
      (∃ l', PluginLoader.find w'.loaders 1 = some l' ∧ 0 ∈ l'.references) ∧
      (∃ c', Client.get w'.clients 2 = some c' ∧ 0 ∈ c'.references) :=
  (load_resolution_containment wC5 0 (PluginInstance.initState rC5)
      (by decide)).2.2
    { lid := 1, references := [] } { cid := 2, references := [] }
    (by decide) (by decide)

/-! ### Claim C10: delete leaves the registry cache intact -/

/-- C10: `delete` never touches the class-level cache, so after a
successful delete the persisted record is gone from the table, yet every id
the cache resolved before still resolves to the same object token, and
`get` keeps returning that same (deleted) instance object. -/
theorem delete_keeps_cached_instance (w : World) (tok : Nat) (st : InstState)
    (w' : World)
    (hi : w.inst tok = some st)
    (hdel : PluginInstance.delete w tok = some w') :
    w'.cache = w.cache ∧
    DBPlugin.queryGet w'.dbPlugins st.dbInstance.id = none ∧
    (∀ i t d, w.cacheLookup i = some t →
      PluginInstance.get w' i d = (some t, w')) := by
  unfold PluginInstance.delete at hdel
  rw [hi] at hdel
  dsimp only at hdel
  cases hl : st.loader with
  | none => rw [hl] at hdel; exact Option.noConfusion hdel
  | some lk =>
    rw [hl] at hdel
    dsimp only at hdel
    cases hf : PluginLoader.find w.loaders lk with
    | none => rw [hf] at hdel; exact Option.noConfusion hdel
    | some l =>
      rw [hf] at hdel
      dsimp only at hdel
      cases hrm : refsRemove l.references tok with
      | none => rw [hrm] at hdel; exact Option.noConfusion hdel
      | some refs =>
        rw [hrm] at hdel
        dsimp only at hdel
        obtain rfl := Option.some.inj hdel
        refine ⟨rfl, queryGet_filter_ne _ _, ?_⟩
        intro i t d h
        unfold PluginInstance.get
        have hlook :
            ({ w.putLoader { lid := l.lid, references := refs } with
                dbPlugins := (w.putLoader
                  { lid := l.lid, references := refs }).dbPlugins.filter
                    (fun r => r.id != st.dbInstance.id) } : World
              ).cacheLookup i = some t := h
        rw [hlook]

/-- Witness for C10: after deleting instance 40, the record is gone but the
cache still resolves id 40 to the same object token. -/
theorem delete_keeps_cached_instance_witness :
    wC10del.cache = wC10.cache ∧
    DBPlugin.queryGet wC10del.dbPlugins 40 = none ∧
    PluginInstance.get wC10del 40 none = (some 0, wC10del) := by
  have h := delete_keeps_cached_instance wC10 0 stC10 wC10del (by decide)
    (by decide)
  exact ⟨h.1, h.2.1, h.2.2 40 0 none (by decide)⟩
